import Mathlib

/-!
Verification development for the feed aggregation and curation pipeline in
`src/RPDtest.py` (Singapore Food Tech Scanner).

The Python program is shallowly embedded below.  External collaborators
(the feed parser `feedparser`, the HTML sanitizer `BeautifulSoup`, the
entity decoder `html.unescape`, the date parser `dateutil.parser.parse`,
the pretty-printer `pprint.pformat`, and the OpenAI completion client) are
modelled as explicit function parameters; everything the repository's own
code decides (field defaulting, content-selection priority, the
`.replace(tzinfo=utc)` call, the date-range fold, the pagination formulas,
the session-state updates and the error-string conversion) is translated
directly from the source.

Conventions:
* Python `datetime` values are `PyDateTime`: a wall-clock reading (minutes
  since 0001-01-01T00:00, the minimum representable Python datetime) plus
  the `utcoffset` in minutes; the instant such a value denotes is
  `wall - offsetMin`.  Comparison of timezone-aware datetimes in Python
  compares denoted instants, which `pymin`/`pymax` reproduce.
* Fallible Python code is embedded with `Except`/`Option`: a raised
  exception is an `Except.error` carrying the message, `dateutil` failure
  is `none`.
* Machine integers do not overflow in the modelled code paths; Python
  integers are unbounded, so `Int`/`Nat` are exact.
-/

namespace RPD

/-- Article record built by `parse_feed` (RPDtest.py lines 48-55):
six string fields, `domain` and `source_url` supplied by the caller. -/
structure Article where
  title : String
  content : String
  link : String
  date : String
  domain : String
  source_url : String
deriving DecidableEq, Repr

/-- One raw feed entry as surfaced by the feed-parsing collaborator.
Each field is optional (`entry.get` with a default is used in the source);
`content`, as in feedparser, is an optional list of content blocks, each
block carrying an optional `value` string. -/
structure RawEntry where
  title : Option String
  content : Option (List (Option String))
  summary : Option String
  description : Option String
  link : Option String
  published : Option String
deriving DecidableEq, Repr

/-- Embedding of `entry.get('content', [{}])[0].get('value', '')`
(RPDtest.py line 40).  A missing `content` key defaults to a one-element
list whose block has no `value`; indexing `[0]` into a present but empty
list raises `IndexError`, modelled as `Except.error`. -/
def contentValue (e : RawEntry) : Except String String :=
  match e.content.getD [none] with
  | [] => Except.error "list index out of range"
  | v :: _ => Except.ok (v.getD "")

/-- Entry Normalizer: the body of the `for entry in feed.entries` loop of
`parse_feed` (RPDtest.py lines 39-55).  `unescape` stands for
`html.unescape` and `cleanHtml` for `clean_html_content` (whose body is
one call into the BeautifulSoup sanitizer); both are external
collaborators passed in as functions. -/
def normalizeEntry (unescape cleanHtml : String → String)
    (e : RawEntry) (domain url : String) : Except String Article :=
  match contentValue e with
  | Except.error msg => Except.error msg
  | Except.ok c0 =>
    let c1 := if c0 = "" then
        (if e.summary.getD "" = "" then e.description.getD "" else e.summary.getD "")
      else c0
    Except.ok
      { title := e.title.getD ""
        content := cleanHtml (unescape c1)
        link := e.link.getD ""
        date := e.published.getD ""
        domain := domain
        source_url := url }

/-- First non-empty string of a list, empty if none is non-empty;
used to state the content-selection priority of the Entry Normalizer. -/
def firstNonEmpty : List String → String
  | [] => ""
  | s :: rest => if s = "" then firstNonEmpty rest else s

/-- Python timezone-aware `datetime`: wall-clock reading in minutes since
0001-01-01T00:00 together with the `utcoffset` in minutes.  The instant
denoted is `wall - offsetMin`. -/
structure PyDateTime where
  wall : Int
  offsetMin : Int
deriving DecidableEq, Repr

/-- The instant a `PyDateTime` denotes, on the UTC scale. -/
def instant (d : PyDateTime) : Int := d.wall - d.offsetMin

/-- `d.replace(tzinfo=timezone.utc)`: keeps the wall-clock reading and
overwrites the offset with zero (no conversion of the reading). -/
def replaceTzUtc (d : PyDateTime) : PyDateTime :=
  { wall := d.wall, offsetMin := 0 }

/-- `d.astimezone(timezone.utc)`: genuine conversion of the reading to
UTC, preserving the denoted instant. -/
def astimezoneUtc (d : PyDateTime) : PyDateTime :=
  { wall := d.wall - d.offsetMin, offsetMin := 0 }

/-- `datetime.min.replace(tzinfo=timezone.utc)` (RPDtest.py line 138):
the minimum representable timestamp, 0001-01-01T00:00 UTC. -/
def datetimeMinUtc : PyDateTime := { wall := 0, offsetMin := 0 }

/-- Python `min` on two aware datetimes: compares denoted instants and
returns the first argument on ties. -/
def pymin (a b : PyDateTime) : PyDateTime :=
  if instant a ≤ instant b then a else b

/-- Python `max` on two aware datetimes: compares denoted instants and
returns the first argument on ties. -/
def pymax (a b : PyDateTime) : PyDateTime :=
  if instant b ≤ instant a then a else b

/-- `parse_date` (RPDtest.py lines 25-29): the external dateutil parser is
the collaborator `parse` (returning `none` where Python raises); on
success the result's tzinfo is REPLACED by UTC — the wall-clock reading is
kept and the source offset discarded. -/
def parse_date (parse : String → Option PyDateTime) (s : String) :
    Option PyDateTime :=
  (parse s).map replaceTzUtc

/-- Modelled from the spec: the variant of `parse_date` the specification
describes, in which the parsed timestamp is normalized (converted) to UTC
before comparison, i.e. `astimezone` rather than `replace`. -/
def parse_date_utc (parse : String → Option PyDateTime) (s : String) :
    Option PyDateTime :=
  (parse s).map astimezoneUtc

/-- The date-range accumulation loop of `main` (RPDtest.py lines 146-150):
for every article whose raw `date` string parses, update
`earliest = min(earliest, parsed)` and `latest = max(latest, parsed)`;
unparseable dates leave the accumulator untouched. -/
def updateDateRange (parse : String → Option PyDateTime)
    (acc : PyDateTime × PyDateTime) (arts : List Article) :
    PyDateTime × PyDateTime :=
  arts.foldl (fun acc a =>
    match parse_date parse a.date with
    | some d => (pymin acc.1 d, pymax acc.2 d)
    | none => acc) acc

/-- Date-range computation of one aggregation pass (RPDtest.py lines
137-150): earliest initialized to `now`, latest to the minimum
representable timestamp, then folded over the fetched articles. -/
def computeDateRange (parse : String → Option PyDateTime)
    (now : PyDateTime) (arts : List Article) : PyDateTime × PyDateTime :=
  updateDateRange parse (now, datetimeMinUtc) arts

/-- Modelled from the spec: the same fold but with timestamps converted
(`astimezone`) to UTC as §4.3 of the spec describes, for comparison with
`computeDateRange`. -/
def computeDateRangeSpec (parse : String → Option PyDateTime)
    (now : PyDateTime) (arts : List Article) : PyDateTime × PyDateTime :=
  arts.foldl (fun acc a =>
    match parse_date_utc parse a.date with
    | some d => (pymin acc.1 d, pymax acc.2 d)
    | none => acc) (now, datetimeMinUtc)

/-- The rendered date-range string (RPDtest.py line 161); `fmt` stands for
the strftime collaborator rendering a datetime as `%Y-%m-%d`. -/
def renderDateRange (fmt : PyDateTime → String)
    (r : PyDateTime × PyDateTime) : String :=
  "📅 Date range: " ++ fmt r.1 ++ " to " ++ fmt r.2

/-- `articles_per_page = 10` (RPDtest.py line 178). -/
def articles_per_page : Nat := 10

/-- `total_pages = (len(articles) - 1) // articles_per_page + 1`
(RPDtest.py line 179).  Python `//` is floor division, `Int.fdiv`. -/
def total_pages (n P : Nat) : Int :=
  Int.fdiv ((n : Int) - 1) (P : Int) + 1

/-- The slice `articles[start_idx:end_idx]` with
`start_idx = (page - 1) * P` and `end_idx = start_idx + P`
(RPDtest.py lines 181-184), for a 1-based page number. -/
def pageSlice {α : Type} (l : List α) (P page : Nat) : List α :=
  (l.drop ((page - 1) * P)).take P

/-- `ceil(n / P)` on naturals, the page count named by the spec. -/
def ceilPages (n P : Nat) : Nat := (n + P - 1) / P

/-- Session state of `main` (RPDtest.py lines 119-130): the articles
collection, the fetched flag, the rendered summary and date-range strings,
the selected domain and the 1-based current page (a Python int). -/
structure Session where
  articles_by_domain : List (String × List Article)
  articles_fetched : Bool
  article_summary : String
  date_range : String
  current_domain : String
  current_page : Int
deriving DecidableEq, Repr

/-- First-access initialization of the session fields
(RPDtest.py lines 119-130). -/
def initSession : Session :=
  { articles_by_domain := []
    articles_fetched := false
    article_summary := ""
    date_range := ""
    current_domain := "Agriculture"
    current_page := 1 }

/-- `articles_by_domain[domain]` on the defaultdict: the stored list, or
the empty list for a missing key. -/
def lookupDomain (m : List (String × List Article)) (d : String) :
    List Article :=
  match m.find? (fun p => p.1 == d) with
  | some p => p.2
  | none => []

/-- `articles_by_domain[domain].extend(articles)` (RPDtest.py line 142) on
the defaultdict: append to the existing bucket or create it. -/
def extendDomainColl (m : List (String × List Article)) (d : String)
    (arts : List Article) : List (String × List Article) :=
  if m.any (fun p => p.1 == d) then
    m.map (fun p => if p.1 == d then (p.1, p.2 ++ arts) else p)
  else m ++ [(d, arts)]

/-- Effect of the Fetch Articles handler on the session
(RPDtest.py lines 152-161): the collection, fetched flag, summary and
date-range strings are replaced; nothing else is written. -/
def fetchAction (s : Session) (coll : List (String × List Article))
    (summary dr : String) : Session :=
  { s with articles_by_domain := coll
           articles_fetched := true
           article_summary := summary
           date_range := dr }

/-- Effect of the domain selectbox (RPDtest.py line 175): only
`current_domain` is written. -/
def selectDomain (s : Session) (d : String) : Session :=
  { s with current_domain := d }

/-- The `total_pages` value the page-navigation buttons see, computed from
the currently selected domain's article list (RPDtest.py lines 177-179). -/
def sessionTotalPages (s : Session) : Int :=
  total_pages (lookupDomain s.articles_by_domain s.current_domain).length
    articles_per_page

/-- Effect of pressing Previous (RPDtest.py lines 196-198): the button is
disabled exactly when `current_page == 1`; an enabled press decrements. -/
def prevAction (s : Session) : Session :=
  if s.current_page = 1 then s
  else { s with current_page := s.current_page - 1 }

/-- Effect of pressing Next (RPDtest.py lines 204-206): the button is
disabled exactly when `current_page == total_pages`; an enabled press
increments. -/
def nextAction (s : Session) : Session :=
  if s.current_page = sessionTotalPages s then s
  else { s with current_page := s.current_page + 1 }

/-- One chat message of the completion request. -/
structure ChatMessage where
  role : String
  content : String
deriving DecidableEq, Repr

/-- The completion request the code dispatches
(RPDtest.py lines 65-74). -/
structure ChatRequest where
  model : String
  messages : List ChatMessage
  max_tokens : Nat
  n : Nat
  temperature : ℚ
deriving DecidableEq, Repr

/-- One returned completion choice. -/
structure ChatChoice where
  message : ChatMessage
deriving DecidableEq, Repr

/-- The completion response: a list of choices. -/
structure ChatResponse where
  choices : List ChatChoice
deriving DecidableEq, Repr

/-- The fixed system message of `get_top_articles`
(RPDtest.py line 68). -/
def systemMessage : String :=
  "You are an AI assistant tasked with selecting the top 5 articles for each domain (agriculture, aquaculture, future foods, and food safety) most relevant to stakeholders in Singapore\x27s food safety and security."

/-- The single request built by `get_top_articles`
(RPDtest.py lines 65-74): fixed model id, system plus user message,
`max_tokens=2500`, `n=1`, `temperature=0.5`. -/
def buildRequest (articles_text prompt : String) : ChatRequest :=
  { model := "gpt-4o-mini"
    messages :=
      [ { role := "system", content := systemMessage },
        { role := "user",
          content :=
            prompt ++ "\n\nHere is a list of articles organized by domain:\n\n"
              ++ articles_text } ]
    max_tokens := 2500
    n := 1
    temperature := 1 / 2 }

/-- `get_top_articles` (RPDtest.py lines 62-77).  `complete` is the
external completion client (an `Except.error` is a raised exception),
`pfmt` is `pprint.pformat`.  The whole body sits in one `try`: a client
exception, and equally the `IndexError` of `choices[0]` on an empty
choices list, become the string `"An error occurred: " + str(e)`. -/
def get_top_articles (complete : ChatRequest → Except String ChatResponse)
    (pfmt : List (String × List Article) → String)
    (articles_by_domain : List (String × List Article)) (prompt : String) :
    String :=
  match complete (buildRequest (pfmt articles_by_domain) prompt) with
  | Except.error e => "An error occurred: " ++ e
  | Except.ok r =>
    match r.choices with
    | [] => "An error occurred: list index out of range"
    | c :: _ => c.message.content

/-- The Get Top Articles button handler (RPDtest.py lines 230-234): calls
`get_top_articles` on the stored collection and writes nothing back into
the session. -/
def getTopArticlesAction (complete : ChatRequest → Except String ChatResponse)
    (pfmt : List (String × List Article) → String)
    (s : Session) (prompt : String) : Session × String :=
  (s, get_top_articles complete pfmt s.articles_by_domain prompt)

end RPD

/-- Concrete date-parser environment: two raw dates denoting the instants
02:00 UTC (written 10:00 at offset +08:00) and 05:00 UTC, as wall-clock
minutes within the day plus the offset in minutes. -/
def tzProbeParse : String → Option RPD.PyDateTime := fun s =>
  if s = "2024-01-05T10:00:00+08:00" then some ⟨600, 480⟩
  else if s = "2024-01-05T05:00:00+00:00" then some ⟨300, 0⟩
  else none

/-- Two articles carrying those raw date strings. -/
def tzProbeArticles : List RPD.Article :=
  [ ⟨"a1", "", "", "2024-01-05T10:00:00+08:00", "Agriculture", "u"⟩,
    ⟨"a2", "", "", "2024-01-05T05:00:00+00:00", "Agriculture", "u"⟩ ]

/-- Concrete date-parser environment for the spec's date-range scenario:
the two well-formed dates parse (at offset zero, 2023-12-01 before
2024-01-05), the malformed one fails. -/
def scenarioParse : String → Option RPD.PyDateTime := fun s =>
  if s = "2024-01-05T00:00:00Z" then some ⟨2000, 0⟩
  else if s = "2023-12-01T00:00:00Z" then some ⟨1000, 0⟩
  else none

/-- Helper: for a non-empty sequence the code's floor-division formula
agrees with the ceiling page count. -/
theorem total_pages_eq_ceilPages (n P : ℕ) (hP : 0 < P) (hn : 0 < n) :
    RPD.total_pages n P = ((RPD.ceilPages n P : ℕ) : ℤ) := by
  unfold RPD.total_pages RPD.ceilPages
  have h1 : (n : ℤ) - 1 = ((n - 1 : ℕ) : ℤ) := by omega
  rw [h1, show Int.fdiv ((n - 1 : ℕ) : ℤ) (P : ℤ) = (((n - 1) / P : ℕ) : ℤ) by
    rw [Int.fdiv_eq_tdiv (by positivity) (by positivity)]; rfl]
  have h2 : (n + P - 1) / P = (n - 1) / P + 1 := by
    have h3 : n + P - 1 = (n - 1) + P := by omega
    rw [h3, Nat.add_div_right _ hP]
  rw [h2]
  push_cast
  ring

/-- C1: corrected.  For every non-empty article sequence the total page
count computed by the Pagination Browser equals ceil(length / pageSize)
at the configured page size 10; but for the empty sequence the displayed
slice is empty and the computed total page count is 0, not 1 — the
claimed floor of one page does not hold. -/
theorem c1_total_pages_amended (n : ℕ) (hn : 0 < n) :
    RPD.total_pages n RPD.articles_per_page
        = ((RPD.ceilPages n RPD.articles_per_page : ℕ) : ℤ)
      ∧ RPD.pageSlice ([] : List RPD.Article) RPD.articles_per_page 1 = []
      ∧ RPD.total_pages 0 RPD.articles_per_page = 0 :=
  ⟨total_pages_eq_ceilPages n RPD.articles_per_page (by decide) hn,
   rfl, by decide⟩

/-- C1 witness: concrete instantiation at 25 articles, page size 10:
three pages. -/
theorem c1_total_pages_amended_witness :
    (RPD.total_pages 25 RPD.articles_per_page
        = ((RPD.ceilPages 25 RPD.articles_per_page : ℕ) : ℤ)
      ∧ RPD.pageSlice ([] : List RPD.Article) RPD.articles_per_page 1 = []
      ∧ RPD.total_pages 0 RPD.articles_per_page = 0)
    ∧ RPD.total_pages 25 RPD.articles_per_page = 3 :=
  ⟨c1_total_pages_amended 25 (by decide), by decide⟩

/-- C1 counterexample: on the empty article sequence with page size 10
the displayed slice is empty, but the total page count the code computes
is 0, refuting `totalPages == 1`. -/
theorem c1_empty_counterexample :
    RPD.pageSlice ([] : List RPD.Article) RPD.articles_per_page 1 = []
      ∧ RPD.total_pages 0 RPD.articles_per_page = 0
      ∧ RPD.total_pages 0 RPD.articles_per_page ≠ 1 :=
  ⟨rfl, by decide, by decide⟩

/-- C2 counterexample: in a session currently on page 2, changing the
selected domain leaves the page at 2, and a completed fetch action leaves
the page at 2 — the claimed reset to 1 happens in neither case. -/
theorem c2_no_reset_counterexample :
    (RPD.selectDomain { RPD.initSession with current_page := 2 }
        "Aquaculture").current_page = 2
      ∧ (RPD.fetchAction { RPD.initSession with current_page := 2 }
          [] "" "").current_page = 2
      ∧ (2 : ℤ) ≠ 1 :=
  ⟨rfl, rfl, by decide⟩

/-- C2: corrected.  The page number is initialized to 1 on first session
access and is NOT reset by a domain change or by a completed fetch (both
leave it unchanged); a Previous/Next button press preserves membership of
the page in [1, totalPages] whenever it already lies in that interval
(Previous is disabled at page 1, Next at the last page), but performs no
clamping of out-of-range values. -/
theorem c2_page_cursor_amended (s : RPD.Session) (d : String)
    (coll : List (String × List RPD.Article)) (sm dr : String)
    (h1 : 1 ≤ s.current_page)
    (h2 : s.current_page ≤ RPD.sessionTotalPages s) :
    RPD.initSession.current_page = 1
      ∧ (RPD.selectDomain s d).current_page = s.current_page
      ∧ (RPD.fetchAction s coll sm dr).current_page = s.current_page
      ∧ 1 ≤ (RPD.prevAction s).current_page
      ∧ (RPD.prevAction s).current_page ≤ RPD.sessionTotalPages s
      ∧ 1 ≤ (RPD.nextAction s).current_page
      ∧ (RPD.nextAction s).current_page ≤ RPD.sessionTotalPages s := by
  refine ⟨rfl, rfl, rfl, ?_, ?_, ?_, ?_⟩
  · simp only [RPD.prevAction]; split_ifs <;> (try simp) <;> omega
  · simp only [RPD.prevAction]; split_ifs <;> (try simp) <;> omega
  · simp only [RPD.nextAction]; split_ifs <;> (try simp) <;> omega
  · simp only [RPD.nextAction]; split_ifs <;> (try simp) <;> omega

/-- C2 witness: a session holding one Agriculture article, on page 1 of
1: the no-reset and in-range-preservation facts at a concrete state. -/
theorem c2_page_cursor_amended_witness :
    RPD.initSession.current_page = 1
      ∧ (RPD.selectDomain
          { RPD.initSession with
              articles_by_domain :=
                [("Agriculture", [⟨"t", "c", "l", "2024-01-05", "Agriculture", "u"⟩])] }
          "Aquaculture").current_page
        = ({ RPD.initSession with
              articles_by_domain :=
                [("Agriculture", [⟨"t", "c", "l", "2024-01-05", "Agriculture", "u"⟩])] } :
            RPD.Session).current_page
      ∧ (RPD.fetchAction
          { RPD.initSession with
              articles_by_domain :=
                [("Agriculture", [⟨"t", "c", "l", "2024-01-05", "Agriculture", "u"⟩])] }
          [] "" "").current_page
        = ({ RPD.initSession with
              articles_by_domain :=
                [("Agriculture", [⟨"t", "c", "l", "2024-01-05", "Agriculture", "u"⟩])] } :
            RPD.Session).current_page
      ∧ 1 ≤ (RPD.prevAction
          { RPD.initSession with
              articles_by_domain :=
                [("Agriculture", [⟨"t", "c", "l", "2024-01-05", "Agriculture", "u"⟩])] }).current_page
      ∧ (RPD.prevAction
          { RPD.initSession with
              articles_by_domain :=
                [("Agriculture", [⟨"t", "c", "l", "2024-01-05", "Agriculture", "u"⟩])] }).current_page
        ≤ RPD.sessionTotalPages
            { RPD.initSession with
                articles_by_domain :=
                  [("Agriculture", [⟨"t", "c", "l", "2024-01-05", "Agriculture", "u"⟩])] }
      ∧ 1 ≤ (RPD.nextAction
          { RPD.initSession with
              articles_by_domain :=
                [("Agriculture", [⟨"t", "c", "l", "2024-01-05", "Agriculture", "u"⟩])] }).current_page
      ∧ (RPD.nextAction
          { RPD.initSession with
              articles_by_domain :=
                [("Agriculture", [⟨"t", "c", "l", "2024-01-05", "Agriculture", "u"⟩])] }).current_page
        ≤ RPD.sessionTotalPages
            { RPD.initSession with
                articles_by_domain :=
                  [("Agriculture", [⟨"t", "c", "l", "2024-01-05", "Agriculture", "u"⟩])] } :=
  c2_page_cursor_amended
    { RPD.initSession with
        articles_by_domain :=
          [("Agriculture", [⟨"t", "c", "l", "2024-01-05", "Agriculture", "u"⟩])] }
    "Aquaculture" [] "" "" (by decide) (by decide)

/-- C3 counterexample: a raw entry whose `content` attribute is present
but is the empty list makes the normalizer raise (`IndexError` from
`entry.get('content', [{}])[0]`) instead of producing an Article. -/
theorem c3_raises_counterexample :
    RPD.normalizeEntry id id
        { title := none, content := some [], summary := none,
          description := none, link := none, published := none }
        "Agriculture" "https://example.org/feed"
      = Except.error "list index out of range" := rfl

/-- C3: corrected.  For every raw feed entry whose `content` attribute,
when present, is a non-empty list, the Entry Normalizer produces exactly
one Article record without raising, carrying the caller-supplied domain
and source URL; any absent field among title, link and the published date
degrades to the empty string.  (An entry whose `content` attribute is an
empty list instead raises, aborting the feed.) -/
theorem c3_normalizer_total_amended (u c : String → String)
    (e : RPD.RawEntry) (d url : String) (h : e.content ≠ some []) :
    ∃ a : RPD.Article, RPD.normalizeEntry u c e d url = Except.ok a
      ∧ a.domain = d ∧ a.source_url = url
      ∧ (e.title = none → a.title = "")
      ∧ (e.link = none → a.link = "")
      ∧ (e.published = none → a.date = "") := by
  obtain ⟨t, co, su, de, li, pu⟩ := e
  rcases co with _ | ⟨_ | ⟨v, vs⟩⟩
  · refine ⟨_, rfl, rfl, rfl, ?_, ?_, ?_⟩ <;> rintro rfl <;> rfl
  · exact absurd rfl h
  · refine ⟨_, rfl, rfl, rfl, ?_, ?_, ?_⟩ <;> rintro rfl <;> rfl

/-- C3 witness: an entirely empty raw entry normalizes to an Article with
every extracted field empty and the caller-supplied domain and URL. -/
theorem c3_normalizer_total_amended_witness :
    ∃ a : RPD.Article, RPD.normalizeEntry id id
        { title := none, content := none, summary := none,
          description := none, link := none, published := none }
        "Agriculture" "https://example.org/feed"
      = Except.ok a
      ∧ a.domain = "Agriculture" ∧ a.source_url = "https://example.org/feed"
      ∧ (({ title := none, content := none, summary := none,
            description := none, link := none, published := none } :
            RPD.RawEntry).title = none → a.title = "")
      ∧ (({ title := none, content := none, summary := none,
            description := none, link := none, published := none } :
            RPD.RawEntry).link = none → a.link = "")
      ∧ (({ title := none, content := none, summary := none,
            description := none, link := none, published := none } :
            RPD.RawEntry).published = none → a.date = "") :=
  c3_normalizer_total_amended id id
    { title := none, content := none, summary := none,
      description := none, link := none, published := none }
    "Agriculture" "https://example.org/feed" (by simp)

/-- Helper: the three-way Python fallback
`content if content else (summary or description)` picks exactly the
first non-empty string of the three. -/
theorem firstNonEmpty_eq_fallback (v s dsc : String) :
    RPD.firstNonEmpty [v, s, dsc]
      = if v = "" then (if s = "" then dsc else s) else v := by
  by_cases hv : v = "" <;> by_cases hs : s = "" <;> by_cases hd : dsc = "" <;>
    simp [RPD.firstNonEmpty, hv, hs, hd]

/-- C4: confirmed.  Whenever the Entry Normalizer produces an Article,
its content is the first non-empty value among the entry's explicit
content-block value, its summary and its description (in that priority
order), passed through the entity decoder and then the markup-stripping
sanitizer (both external collaborators, here `u` and `c`); title, link
and the raw publication string are copied through verbatim with empty
string for an absent field. -/
theorem c4_content_priority (u c : String → String) (e : RPD.RawEntry)
    (d url : String) (a : RPD.Article) (v : String)
    (hv : RPD.contentValue e = Except.ok v)
    (h : RPD.normalizeEntry u c e d url = Except.ok a) :
    a.content
        = c (u (RPD.firstNonEmpty
            [v, e.summary.getD "", e.description.getD ""]))
      ∧ a.title = e.title.getD ""
      ∧ a.link = e.link.getD ""
      ∧ a.date = e.published.getD "" := by
  unfold RPD.normalizeEntry at h
  rw [hv] at h
  simp only [Except.ok.injEq] at h
  subst h
  refine ⟨?_, rfl, rfl, rfl⟩
  rw [firstNonEmpty_eq_fallback]

/-- C4 witness: an entry with an empty content block and a non-empty
summary: the summary wins the priority and flows through the two
collaborators (both the identity here). -/
theorem c4_content_priority_witness :
    (RPD.normalizeEntry id id
        { title := some "T", content := some [some ""],
          summary := some "the summary", description := some "the description",
          link := some "L", published := some "P" }
        "Agriculture" "https://example.org/feed"
      = Except.ok
          { title := "T", content := "the summary", link := "L",
            date := "P", domain := "Agriculture",
            source_url := "https://example.org/feed" })
    ∧ ({ title := "T", content := "the summary", link := "L",
          date := "P", domain := "Agriculture",
          source_url := "https://example.org/feed" } : RPD.Article).content
        = id (id (RPD.firstNonEmpty ["", "the summary", "the description"])) := by
  constructor
  · rfl
  · exact (c4_content_priority id id
      { title := some "T", content := some [some ""],
        summary := some "the summary", description := some "the description",
        link := some "L", published := some "P" }
      "Agriculture" "https://example.org/feed"
      { title := "T", content := "the summary", link := "L",
        date := "P", domain := "Agriculture",
        source_url := "https://example.org/feed" }
      "" rfl rfl).1

/-- C5: the code calls `.replace(tzinfo=utc)`, which keeps the wall-clock
reading and discards the source offset instead of converting to UTC.  On
raw dates 2024-01-05T10:00:00+08:00 (instant 02:00 UTC) and
2024-01-05T05:00:00+00:00 (instant 05:00 UTC) the code picks the 05:00Z
record as earliest, while the conversion the spec describes picks the
+08:00 record: timestamps with differing offsets are compared on their
wall-clock readings, not on a single fixed time-zone scale. -/
theorem c5_replace_discards_offset :
    (RPD.computeDateRange tzProbeParse ⟨1000000, 0⟩ tzProbeArticles).1
        = ⟨300, 0⟩
      ∧ (RPD.computeDateRangeSpec tzProbeParse ⟨1000000, 0⟩ tzProbeArticles).1
        = ⟨120, 0⟩
      ∧ RPD.instant
            (RPD.computeDateRange tzProbeParse ⟨1000000, 0⟩ tzProbeArticles).1
          ≠ RPD.instant
            (RPD.computeDateRangeSpec tzProbeParse ⟨1000000, 0⟩
              tzProbeArticles).1 := by
  decide

/-- C6: confirmed.  With a parser environment that parses the two
well-formed scenario dates (2023-12-01 strictly before 2024-01-05, both
before the pass start `now`) and fails on "not-a-date", the fold started
at (now, minimum timestamp) returns the 2023-12-01 record's timestamp as
earliest and the 2024-01-05 one as latest; the malformed record is
skipped without failing and all three records stay in the aggregated
collection. -/
theorem c6_date_range_scenario (parse : String → Option RPD.PyDateTime)
    (nowWall w1 w2 : ℤ) (a1 a2 a3 : RPD.Article) (dom : String)
    (hd1 : a1.date = "2024-01-05T00:00:00Z")
    (hd2 : a2.date = "not-a-date")
    (hd3 : a3.date = "2023-12-01T00:00:00Z")
    (hp1 : parse "2024-01-05T00:00:00Z" = some ⟨w1, 0⟩)
    (hp2 : parse "not-a-date" = none)
    (hp3 : parse "2023-12-01T00:00:00Z" = some ⟨w2, 0⟩)
    (hw0 : 0 < w2) (hw12 : w2 < w1) (hnow : w1 < nowWall) :
    RPD.computeDateRange parse ⟨nowWall, 0⟩ [a1, a2, a3] = (⟨w2, 0⟩, ⟨w1, 0⟩)
      ∧ RPD.lookupDomain (RPD.extendDomainColl [] dom [a1, a2, a3]) dom
        = [a1, a2, a3] := by
  constructor
  · have e1 : RPD.parse_date parse a1.date = some ⟨w1, 0⟩ := by
      rw [hd1]; simp [RPD.parse_date, hp1, RPD.replaceTzUtc]
    have e2 : RPD.parse_date parse a2.date = none := by
      rw [hd2]; simp [RPD.parse_date, hp2]
    have e3 : RPD.parse_date parse a3.date = some ⟨w2, 0⟩ := by
      rw [hd3]; simp [RPD.parse_date, hp3, RPD.replaceTzUtc]
    simp only [RPD.computeDateRange, RPD.updateDateRange, List.foldl,
      e1, e2, e3]
    simp only [RPD.pymin, RPD.pymax, RPD.instant, RPD.datetimeMinUtc]
    split_ifs <;> simp_all <;> omega
  · simp [RPD.extendDomainColl, RPD.lookupDomain]

/-- C6 witness: the scenario evaluated in a concrete environment. -/
theorem c6_date_range_scenario_witness :
    RPD.computeDateRange scenarioParse ⟨3000, 0⟩
        [ ⟨"", "", "", "2024-01-05T00:00:00Z", "Future Food", "u"⟩,
          ⟨"", "", "", "not-a-date", "Future Food", "u"⟩,
          ⟨"", "", "", "2023-12-01T00:00:00Z", "Future Food", "u"⟩ ]
        = (⟨1000, 0⟩, ⟨2000, 0⟩)
      ∧ RPD.lookupDomain
          (RPD.extendDomainColl [] "Future Food"
            [ ⟨"", "", "", "2024-01-05T00:00:00Z", "Future Food", "u"⟩,
              ⟨"", "", "", "not-a-date", "Future Food", "u"⟩,
              ⟨"", "", "", "2023-12-01T00:00:00Z", "Future Food", "u"⟩ ])
          "Future Food"
        = [ ⟨"", "", "", "2024-01-05T00:00:00Z", "Future Food", "u"⟩,
            ⟨"", "", "", "not-a-date", "Future Food", "u"⟩,
            ⟨"", "", "", "2023-12-01T00:00:00Z", "Future Food", "u"⟩ ] :=
  c6_date_range_scenario scenarioParse 3000 2000 1000 _ _ _ "Future Food"
    rfl rfl rfl (by decide) (by decide) (by decide)
    (by decide) (by decide) (by decide)

/-- C7: confirmed.  If the completion collaborator raises (returns an
exception value) on the single request the builder dispatches, the Get
Top Articles handler returns the session unchanged together with the
string "An error occurred: " followed by the exception text; the embedded
handler is a total function, so nothing propagates to the caller. -/
theorem c7_error_to_string
    (complete : RPD.ChatRequest → Except String RPD.ChatResponse)
    (pfmt : List (String × List RPD.Article) → String) (s : RPD.Session)
    (prompt e : String)
    (h : complete (RPD.buildRequest (pfmt s.articles_by_domain) prompt)
      = Except.error e) :
    RPD.getTopArticlesAction complete pfmt s prompt
      = (s, "An error occurred: " ++ e) := by
  simp [RPD.getTopArticlesAction, RPD.get_top_articles, h]

/-- C7 witness: a collaborator that always raises a transport error. -/
theorem c7_error_to_string_witness :
    RPD.getTopArticlesAction (fun _ => Except.error "Connection error.")
        (fun _ => "") RPD.initSession "rank the articles"
      = (RPD.initSession, "An error occurred: " ++ "Connection error.") :=
  c7_error_to_string (fun _ => Except.error "Connection error.")
    (fun _ => "") RPD.initSession "rank the articles" "Connection error." rfl

/-- C9: confirmed.  On a successful completion call whose response has a
first choice, the handler returns that first completion's text verbatim
and leaves the session untouched; the single request it dispatches is
configured with the fixed model identifier "gpt-4o-mini", a maximum
output length of 2500 tokens (within the observed 2000-2500 band), one
completion per request and temperature 0.5; and the result depends on the
collaborator only through its answer to that one request. -/
theorem c9_success_verbatim_and_config
    (complete : RPD.ChatRequest → Except String RPD.ChatResponse)
    (pfmt : List (String × List RPD.Article) → String) (s : RPD.Session)
    (prompt : String) (r : RPD.ChatResponse) (ch : RPD.ChatChoice)
    (rest : List RPD.ChatChoice)
    (h1 : complete (RPD.buildRequest (pfmt s.articles_by_domain) prompt)
      = Except.ok r)
    (h2 : r.choices = ch :: rest) :
    RPD.getTopArticlesAction complete pfmt s prompt = (s, ch.message.content)
      ∧ (∀ a p : String, (RPD.buildRequest a p).model = "gpt-4o-mini"
          ∧ 2000 ≤ (RPD.buildRequest a p).max_tokens
          ∧ (RPD.buildRequest a p).max_tokens ≤ 2500
          ∧ (RPD.buildRequest a p).n = 1
          ∧ (RPD.buildRequest a p).temperature = 0.5)
      ∧ (∀ complete2 : RPD.ChatRequest → Except String RPD.ChatResponse,
          complete2 (RPD.buildRequest (pfmt s.articles_by_domain) prompt)
              = complete (RPD.buildRequest (pfmt s.articles_by_domain) prompt) →
            RPD.getTopArticlesAction complete2 pfmt s prompt
              = RPD.getTopArticlesAction complete pfmt s prompt) := by
  refine ⟨?_, ?_, ?_⟩
  · simp [RPD.getTopArticlesAction, RPD.get_top_articles, h1, h2]
  · intro a p
    exact ⟨rfl, by norm_num [RPD.buildRequest], by norm_num [RPD.buildRequest],
      rfl, by norm_num [RPD.buildRequest]⟩
  · intro complete2 hc2
    simp [RPD.getTopArticlesAction, RPD.get_top_articles, hc2]

/-- C9 witness: a collaborator succeeding with one choice; the choice
text comes back verbatim. -/
theorem c9_success_verbatim_and_config_witness :
    RPD.getTopArticlesAction
        (fun _ => Except.ok ⟨[⟨⟨"assistant", "the ranked articles"⟩⟩]⟩)
        (fun _ => "") RPD.initSession "rank the articles"
      = (RPD.initSession, "the ranked articles")
      ∧ (∀ a p : String, (RPD.buildRequest a p).model = "gpt-4o-mini"
          ∧ 2000 ≤ (RPD.buildRequest a p).max_tokens
          ∧ (RPD.buildRequest a p).max_tokens ≤ 2500
          ∧ (RPD.buildRequest a p).n = 1
          ∧ (RPD.buildRequest a p).temperature = 0.5)
      ∧ (∀ complete2 : RPD.ChatRequest → Except String RPD.ChatResponse,
          complete2 (RPD.buildRequest
              ((fun _ => "") RPD.initSession.articles_by_domain)
              "rank the articles")
              = (fun _ => Except.ok ⟨[⟨⟨"assistant", "the ranked articles"⟩⟩]⟩)
                (RPD.buildRequest
                  ((fun _ => "") RPD.initSession.articles_by_domain)
                  "rank the articles") →
            RPD.getTopArticlesAction complete2 (fun _ => "")
                RPD.initSession "rank the articles"
              = RPD.getTopArticlesAction
                  (fun _ => Except.ok ⟨[⟨⟨"assistant", "the ranked articles"⟩⟩]⟩)
                  (fun _ => "") RPD.initSession "rank the articles") :=
  c9_success_verbatim_and_config
    (fun _ => Except.ok ⟨[⟨⟨"assistant", "the ranked articles"⟩⟩]⟩)
    (fun _ => "") RPD.initSession "rank the articles"
    ⟨[⟨⟨"assistant", "the ranked articles"⟩⟩]⟩
    ⟨⟨"assistant", "the ranked articles"⟩⟩ [] rfl rfl

/-- Helper: the date-range fold leaves the accumulator untouched when no
raw date parses. -/
theorem updateDateRange_all_none (parse : String → Option RPD.PyDateTime)
    (acc : RPD.PyDateTime × RPD.PyDateTime) (arts : List RPD.Article)
    (h : ∀ a ∈ arts, parse a.date = none) :
    RPD.updateDateRange parse acc arts = acc := by
  induction arts with
  | nil => rfl
  | cons a rest ih =>
    have ha : RPD.parse_date parse a.date = none := by
      simp [RPD.parse_date, h a (by simp)]
    have step : RPD.updateDateRange parse acc (a :: rest)
        = RPD.updateDateRange parse acc rest := by
      simp [RPD.updateDateRange, List.foldl, ha]
    rw [step]
    exact ih (fun b hb => h b (by simp [hb]))

/-- C10: confirmed.  When no record's raw date parses, the fold returns
the untouched accumulators — earliest is still the pass's start time,
latest is still the minimum representable timestamp — and the date-range
string is rendered from them regardless, displaying "<now> to 0001-01-01"
with the shown earliest strictly later than the shown latest: no sentinel
or empty-range substitute exists in the code. -/
theorem c10_degenerate_range (parse : String → Option RPD.PyDateTime)
    (fmt : RPD.PyDateTime → String) (nowWall : ℤ) (arts : List RPD.Article)
    (h : ∀ a ∈ arts, parse a.date = none)
    (hfmt : fmt RPD.datetimeMinUtc = "0001-01-01")
    (hnow : 0 < nowWall) :
    RPD.computeDateRange parse ⟨nowWall, 0⟩ arts
        = (⟨nowWall, 0⟩, RPD.datetimeMinUtc)
      ∧ RPD.renderDateRange fmt
          (RPD.computeDateRange parse ⟨nowWall, 0⟩ arts)
        = "📅 Date range: " ++ fmt ⟨nowWall, 0⟩ ++ " to 0001-01-01"
      ∧ RPD.instant (RPD.computeDateRange parse ⟨nowWall, 0⟩ arts).2
        < RPD.instant (RPD.computeDateRange parse ⟨nowWall, 0⟩ arts).1 := by
  have h1 : RPD.computeDateRange parse ⟨nowWall, 0⟩ arts
      = (⟨nowWall, 0⟩, RPD.datetimeMinUtc) := by
    unfold RPD.computeDateRange
    exact updateDateRange_all_none parse _ arts h
  refine ⟨h1, ?_, ?_⟩
  · rw [h1]
    simp only [RPD.renderDateRange, hfmt]
    rw [String.append_assoc]
    rfl
  · rw [h1]; simp only [RPD.instant, RPD.datetimeMinUtc]; omega

/-- C10 witness: one article with an unparseable date, a formatter
rendering the minimum timestamp as 0001-01-01, pass start at minute 42:
the rendered range inverts. -/
theorem c10_degenerate_range_witness :
    RPD.computeDateRange (fun _ => none) ⟨42, 0⟩
        [⟨"t", "c", "l", "not-a-date", "Agriculture", "u"⟩]
        = (⟨42, 0⟩, RPD.datetimeMinUtc)
      ∧ RPD.renderDateRange
          (fun d => if d = RPD.datetimeMinUtc then "0001-01-01" else "2026-10-12")
          (RPD.computeDateRange (fun _ => none) ⟨42, 0⟩
            [⟨"t", "c", "l", "not-a-date", "Agriculture", "u"⟩])
        = "📅 Date range: "
            ++ (fun d => if d = RPD.datetimeMinUtc then "0001-01-01" else "2026-10-12")
                (⟨42, 0⟩ : RPD.PyDateTime)
            ++ " to 0001-01-01"
      ∧ RPD.instant (RPD.computeDateRange (fun _ => none) ⟨42, 0⟩
            [⟨"t", "c", "l", "not-a-date", "Agriculture", "u"⟩]).2
        < RPD.instant (RPD.computeDateRange (fun _ => none) ⟨42, 0⟩
            [⟨"t", "c", "l", "not-a-date", "Agriculture", "u"⟩]).1 :=
  c10_degenerate_range (fun _ => none)
    (fun d => if d = RPD.datetimeMinUtc then "0001-01-01" else "2026-10-12")
    42 [⟨"t", "c", "l", "not-a-date", "Agriculture", "u"⟩]
    (by simp) (by decide) (by decide)

/-- Helper: page `i + 2` of a sequence is page `i + 1` of the sequence
with its first page dropped. -/
theorem pageSlice_drop {α : Type} (l : List α) (P i : ℕ) :
    RPD.pageSlice l P (i + 1 + 1) = RPD.pageSlice (l.drop P) P (i + 1) := by
  unfold RPD.pageSlice
  rw [List.drop_drop, show i + 1 + 1 - 1 = i + 1 from rfl,
    show i + 1 - 1 = i from rfl, show (i + 1) * P = P + i * P by ring]

/-- Helper: a sequence with at least one element has one page more than
the sequence with its first page removed. -/
theorem ceilPages_succ (P : ℕ) (hP : 0 < P) (n : ℕ) (hn : 0 < n) :
    RPD.ceilPages n P = RPD.ceilPages (n - P) P + 1 := by
  unfold RPD.ceilPages
  have h2 : n + P - 1 = (n - 1) + P := by omega
  rw [h2, Nat.add_div_right _ hP]
  congr 1
  rcases le_or_lt P n with hc | hc
  · congr 1
    omega
  · have h3 : n - P = 0 := by omega
    rw [h3, Nat.div_eq_of_lt (by omega), Nat.div_eq_of_lt (by omega)]

/-- Helper: the page lengths over pages 1..ceil(N/P) sum to N. -/
theorem sum_pageSlice_lengths {α : Type} (P : ℕ) (hP : 0 < P) (l : List α) :
    ∑ i ∈ Finset.range (RPD.ceilPages l.length P),
      (RPD.pageSlice l P (i + 1)).length = l.length := by
  suffices key : ∀ (N : ℕ) (l : List α), l.length ≤ N →
      ∑ i ∈ Finset.range (RPD.ceilPages l.length P),
        (RPD.pageSlice l P (i + 1)).length = l.length from key l.length l le_rfl
  intro N
  induction N with
  | zero =>
    intro l hl
    have h0 : l.length = 0 := by omega
    rw [h0, show RPD.ceilPages 0 P = 0 from Nat.div_eq_of_lt (by omega)]
    simp
  | succ N ih =>
    intro l hl
    by_cases h0 : l.length = 0
    · rw [h0, show RPD.ceilPages 0 P = 0 from Nat.div_eq_of_lt (by omega)]
      simp
    · have hn : 0 < l.length := by omega
      have hdl : (l.drop P).length = l.length - P := by simp
      rw [ceilPages_succ P hP l.length hn, Finset.sum_range_succ']
      have hsum : ∑ i ∈ Finset.range (RPD.ceilPages (l.length - P) P),
          (RPD.pageSlice l P (i + 1 + 1)).length
          = ∑ i ∈ Finset.range (RPD.ceilPages (l.length - P) P),
            (RPD.pageSlice (l.drop P) P (i + 1)).length :=
        Finset.sum_congr rfl (fun i _ => by rw [pageSlice_drop])
      rw [hsum, show RPD.ceilPages (l.length - P) P
          = RPD.ceilPages (l.drop P).length P by rw [hdl],
        ih (l.drop P) (by rw [hdl]; omega), hdl]
      have hfirst : (RPD.pageSlice l P (0 + 1)).length = min P l.length := by
        simp [RPD.pageSlice]
      rw [hfirst]
      omega

/-- Helper: every page strictly before the last one is full. -/
theorem pageSlice_full_of_not_last {α : Type} (P : ℕ) (hP : 0 < P)
    (l : List α) (i : ℕ) (h : i + 1 < RPD.ceilPages l.length P) :
    (RPD.pageSlice l P (i + 1)).length = P := by
  unfold RPD.ceilPages at h
  have h2 : i + 2 ≤ (l.length + P - 1) / P := by omega
  have h3 : (i + 2) * P ≤ l.length + P - 1 := (Nat.le_div_iff_mul_le hP).mp h2
  rw [show (i + 2) * P = i * P + 2 * P by ring] at h3
  unfold RPD.pageSlice
  rw [show i + 1 - 1 = i from rfl]
  simp only [List.length_take, List.length_drop]
  omega

/-- C8: confirmed.  For every article sequence of length N and every
positive page size P, the slices produced for pages 1 through ceil(N/P)
partition the sequence: their lengths sum to N, and every page other than
the last has exactly P items. -/
theorem c8_pagination_partition {α : Type} (l : List α) (P : ℕ)
    (hP : 0 < P) :
    (∑ i ∈ Finset.range (RPD.ceilPages l.length P),
        (RPD.pageSlice l P (i + 1)).length) = l.length
      ∧ ∀ i : ℕ, i + 1 < RPD.ceilPages l.length P →
          (RPD.pageSlice l P (i + 1)).length = P :=
  ⟨sum_pageSlice_lengths P hP l,
   fun i hi => pageSlice_full_of_not_last P hP l i hi⟩

/-- C8 witness: five items at page size two: pages of lengths 2, 2, 1. -/
theorem c8_pagination_partition_witness :
    (∑ i ∈ Finset.range (RPD.ceilPages ([0, 1, 2, 3, 4] : List ℕ).length 2),
        (RPD.pageSlice ([0, 1, 2, 3, 4] : List ℕ) 2 (i + 1)).length)
      = ([0, 1, 2, 3, 4] : List ℕ).length
      ∧ ∀ i : ℕ, i + 1 < RPD.ceilPages ([0, 1, 2, 3, 4] : List ℕ).length 2 →
          (RPD.pageSlice ([0, 1, 2, 3, 4] : List ℕ) 2 (i + 1)).length = 2 :=
  c8_pagination_partition [0, 1, 2, 3, 4] 2 (by decide)
